import Mathlib

/-!
Verification of the Resilient Streaming Client of `signal-engine-gui`
(`src/client/src/hooks/useWebSocket.ts`).

The hook is shallowly embedded as a state machine: `SessionState` holds the
React state (`data`, `isConnected`, `error`, `signalHistory`), the refs
(`wsRef`, the three timer refs, `reconnectAttemptsRef`, `isMountedRef`,
`isCleaningUpRef`, `connectionStateRef`), and a model of the transport world
(one `Socket` record per WebSocket ever constructed, addressed by a
monotonically increasing id).  Each lifecycle operation of the hook becomes a
Lean function on `SessionState`; asynchronous occurrences (timer firings,
transport events, environment triggers) become `Step`s interpreted by
`stepFn`.  Timer pendency is modelled directly: a timer field is `some`/`true`
exactly while the underlying `setTimeout`/`setInterval` is pending; a firing
step spends it and runs the handler.  `Math.random() * 1000` jitter is a
rational parameter of the scheduling steps, and the floating-point arithmetic
of `scheduleReconnect` (exactly representable at the magnitudes involved) is
modelled over `ℚ` with an explicit `Int.floor`.
-/

set_option autoImplicit false
set_option linter.unreachableTactic false
set_option linter.unnecessarySeqFocus false
set_option linter.unusedTactic false

namespace WSClient

/-- WebSocket ready states (`WebSocket.CONNECTING/OPEN/CLOSING/CLOSED`).
`opened` stands for `WebSocket.OPEN` (`open` is a Lean keyword). -/
inductive ReadyState
  | connecting
  | opened
  | closing
  | closed
deriving DecidableEq, Repr

/-- One WebSocket object.  `handlersAttached` is true while the four
`onopen`/`onmessage`/`onerror`/`onclose` slots are assigned (the hook always
assigns and nulls the four together). -/
structure Socket where
  readyState : ReadyState
  handlersAttached : Bool
deriving DecidableEq, Repr

/-- `connectionStateRef` values: 'disconnected' | 'connecting' | 'connected'. -/
inductive ConnState
  | disconnected
  | connecting
  | connected
deriving DecidableEq, Repr

/-- The strings passed to `setError`, as symbolic values.  `reconnectingIn`
records the rounded seconds interpolated into the reconnect countdown text. -/
inductive ErrMsg
  | connectingMsg
  | connectionTimeoutMsg
  | reconnectingIn (secs : Int)
  | connectionLost
  | networkOffline
deriving DecidableEq, Repr

/-- Market-data payload (`src/client/src/interfaces/types.ts`).  Numeric JSON
fields are modelled as rationals.  The hook treats this payload as opaque
(no field is ever read by `useWebSocket`), so only the required fields are
carried; the many optional indicator fields add nothing to the claims. -/
structure MarketData where
  timestamp : String
  symbol : Option String
  close : ℚ
  volume : ℚ
deriving DecidableEq, Repr

/-- One past signal record (`SignalHistoryItem` in `types.ts`). -/
structure SignalHistoryItem where
  recorded_at : String
  signal : String
  timestamp : String
  symbol : String
  price : ℚ
  directional_indicator : ℚ
  phi_sigma : ℚ
  svc_delta_pct : ℚ
  tf_crit : ℚ
deriving DecidableEq, Repr

/-- Runtime shape of the `data` field of an inbound frame.  The TS type
declares `data?: MarketData`, but `signal_history` frames carry a list there
(the hook casts it at line 223), so the dynamic payload is a sum. -/
inductive FrameData
  | market (d : MarketData)
  | history (items : List SignalHistoryItem)
deriving DecidableEq, Repr

/-- A parsed inbound frame (`WebSocketMessage` in `types.ts`).  Optional JSON
fields are `Option`; `none` models both an absent field and a `null` one
(both are falsy in the hook's truthiness tests). -/
structure WSMessage where
  type : String
  timestamp : Option String
  data : Option FrameData
  status : Option String
  message : Option String
  signal_history : Option (List SignalHistoryItem)
deriving DecidableEq, Repr

/-- `RECONNECT_DELAY = 2000` (line 25). -/
def RECONNECT_DELAY : ℚ := 2000

/-- `MAX_RECONNECT_DELAY = 30000` (line 26). -/
def MAX_RECONNECT_DELAY : ℚ := 30000

/-- `CONNECTION_TIMEOUT = 10000` (line 27): delay the connection-timeout
timer is armed with. -/
def CONNECTION_TIMEOUT : Int := 10000

/-- `PING_INTERVAL = 25000` (line 28). -/
def PING_INTERVAL : Int := 25000

/-- The whole client state: React state, refs, timer pendency, and the
transport world.  Socket ids are indices of the `sockets` function; ids
`≥ nextId` are unallocated and stay `⟨closed, false⟩`. -/
structure SessionState where
  data : Option FrameData
  isConnected : Bool
  error : Option ErrMsg
  signalHistory : List SignalHistoryItem
  wsRef : Option Nat
  /-- Pending reconnect timer, holding the ms delay it was armed with. -/
  reconnectTimeout : Option Int
  /-- Pending connection-timeout timer, holding the socket id the handler
  closure captured as `ws`.  Its delay is always `CONNECTION_TIMEOUT`. -/
  connectionTimeout : Option Nat
  /-- Ping `setInterval` running. -/
  pingInterval : Bool
  reconnectAttempts : Nat
  isMounted : Bool
  isCleaningUp : Bool
  connectionState : ConnState
  sockets : Nat → Socket
  nextId : Nat
  /-- Pending untracked 100 ms grace timers armed by `reconnect()`
  (lines 289–293); the hook holds no ref to them. -/
  graceTimers : Nat
  /-- Pending 50 ms mount-delay timer (`connectTimeout`, line 348). -/
  mountTimer : Bool

/-- `clearTimers` (lines 49–62). -/
def clearTimers (s : SessionState) : SessionState :=
  { s with reconnectTimeout := none, connectionTimeout := none, pingInterval := false }

/-- Effect of `ws.close(...)` on the socket's ready state: CONNECTING and
OPEN sockets move to CLOSING, otherwise the call is a no-op. -/
def closeSock (sk : Socket) : Socket :=
  match sk.readyState with
  | .connecting => { sk with readyState := .closing }
  | .opened => { sk with readyState := .closing }
  | _ => sk

/-- Nulling the four handler slots of a socket. -/
def detachSock (sk : Socket) : Socket :=
  { sk with handlersAttached := false }

/-- Point update of the socket world. -/
def setSock (s : SessionState) (i : Nat) (f : Socket → Socket) : SessionState :=
  { s with sockets := fun j => if j = i then f (s.sockets j) else s.sockets j }

/-- `cleanup(closeSocket)` (lines 64–86).  `isCleaningUpRef` is set at entry
and reset before returning; since the hook is single-threaded the transient
`true` is unobservable and the net state has it `false`. -/
def cleanup (closeSocket : Bool) (s : SessionState) : SessionState :=
  let s1 := clearTimers s
  let s2 :=
    match s1.wsRef, closeSocket with
    | some i, true =>
        { setSock s1 i (fun sk => closeSock (detachSock sk)) with wsRef := none }
    | _, _ => s1
  { s2 with connectionState := .disconnected, isCleaningUp := false }

/-- The delay computed at lines 118–120 once `reconnectAttemptsRef` holds
`attempts`: `Math.floor(Math.min(2000 * 1.5 ^ (attempts - 1), 30000) + jitter)`
with `jitter = Math.random() * 1000`. -/
def computeDelay (attempts : Nat) (jitter : ℚ) : Int :=
  Int.floor (min (RECONNECT_DELAY * (3 / 2 : ℚ) ^ (attempts - 1)) MAX_RECONNECT_DELAY + jitter)

/-- `scheduleReconnect` (lines 106–130).  The pre-existing reconnect timer,
if any, is cleared (line 113) and then overwritten.  The status text
interpolates `Math.round(delay / 1000)`. -/
def scheduleReconnect (jitter : ℚ) (s : SessionState) : SessionState :=
  if !s.isMounted || s.isCleaningUp then s
  else
    let n := s.reconnectAttempts + 1
    let delay := computeDelay n jitter
    { s with
      reconnectAttempts := n,
      error := some (.reconnectingIn ((delay + 500) / 1000)),
      reconnectTimeout := some delay }

/-- Lines 160–182 of `connect`: clear timers, mark connecting, construct the
fresh WebSocket, store it in `wsRef`, and arm the connection timeout whose
closure captures the new socket. -/
def openSocket (s : SessionState) : SessionState :=
  let s1 := clearTimers s
  let s2 := { s1 with connectionState := .connecting, error := some .connectingMsg }
  let i := s2.nextId
  { s2 with
    sockets := fun j => if j = i then ⟨.connecting, true⟩ else s2.sockets j,
    nextId := i + 1,
    wsRef := some i,
    connectionTimeout := some i }

/-- `connect` (lines 132–282).  Early return when unmounted or cleaning up,
or when the current socket is OPEN or CONNECTING; otherwise a dead current
socket is detached and dropped and a fresh connection is opened.  The
`catch` branch for a throwing `WebSocket` constructor is not modelled (the
constructor is not fallible in the modelled environment). -/
def connect (s : SessionState) : SessionState :=
  if !s.isMounted || s.isCleaningUp then s
  else
    match s.wsRef with
    | some i =>
        if (s.sockets i).readyState = .opened then s
        else if (s.sockets i).readyState = .connecting then s
        else openSocket { setSock s i detachSock with wsRef := none }
    | none => openSocket s

/-- `ws.onopen` (lines 184–205), for the socket `i` the handler closed over. -/
def wsOnOpen (i : Nat) (s : SessionState) : SessionState :=
  if s.wsRef ≠ some i then setSock s i closeSock
  else
    { s with
      connectionState := .connected,
      isConnected := true,
      error := none,
      reconnectAttempts := 0,
      connectionTimeout := none,
      pingInterval := true }

/-- Runtime effect of the unchecked cast
`message.data as unknown as SignalHistoryItem[]` (line 223): the payload is
stored into the history state as-is.  We read the list component; a
market-shaped payload in this position (ill-typed traffic the cast would let
through uninspected) is modelled as the empty list. -/
def historyCast : FrameData → List SignalHistoryItem
  | .history items => items
  | .market _ => []

/-- The dispatch on `message.type` inside `ws.onmessage` (lines 212–228).
`connection`, `pong` and unknown types only log. -/
def dispatchMessage (m : WSMessage) (s : SessionState) : SessionState :=
  if m.type = "market_data" ∧ m.data ≠ none then
    let s1 := { s with data := m.data, error := none }
    match m.signal_history with
    | some items => { s1 with signalHistory := items }
    | none => s1
  else if m.type = "signal_history" ∧ m.data ≠ none then
    match m.data with
    | some fd => { s with signalHistory := historyCast fd }
    | none => s
  else s

/-- `ws.onmessage` (lines 207–232): stale-socket guard, then `JSON.parse`
(`frame = none` models a parse failure, which is logged and discarded),
then the type dispatch. -/
def wsOnMessage (i : Nat) (frame : Option WSMessage) (s : SessionState) : SessionState :=
  if s.wsRef ≠ some i then s
  else
    match frame with
    | none => s
    | some m => dispatchMessage m s

/-- `ws.onclose` (lines 242–271). -/
def wsOnClose (i : Nat) (code : Nat) (reason : String) (jitter : ℚ)
    (s : SessionState) : SessionState :=
  if s.wsRef ≠ some i then s
  else
    let s1 := clearTimers { s with connectionState := .disconnected, isConnected := false }
    if s1.isCleaningUp || !s1.isMounted then s1
    else if code = 1000 ∧ reason = "Client cleanup" then s1
    else scheduleReconnect jitter { s1 with error := some .connectionLost }

/-- The connection-timeout handler (lines 170–182), with `i` the socket the
closure captured as `ws`. -/
def connTimeoutHandler (i : Nat) (jitter : ℚ) (s : SessionState) : SessionState :=
  if s.wsRef = some i ∧ (s.sockets i).readyState ≠ .opened then
    let s1 := setSock s i closeSock
    let s2 :=
      { s1 with
        connectionState := .disconnected,
        error := some .connectionTimeoutMsg,
        isConnected := false }
    if s2.isMounted then scheduleReconnect jitter s2 else s2
  else s

/-- Asynchronous occurrences: timer firings, the public operations whose
callers are asynchronous (unmount / manual reconnect), environment triggers,
and transport events.  Transport events carry the id of the socket they
originate from; close events carry the wire code/reason.  Steps whose
trigger is not armed (timer not pending, socket not in the right ready
state, listener removed by unmount) are identities. -/
inductive Step
  | mountFire
  | unmount
  | manualReconnect
  | graceFire
  | reconnectFire
  | connTimeoutFire (jitter : ℚ)
  | pingFire
  | visibilityVisible
  | networkOnline
  | networkOffline
  | deliverOpen (sid : Nat)
  | deliverMessage (sid : Nat) (frame : Option WSMessage)
  | deliverError (sid : Nat)
  | deliverClose (sid : Nat) (code : Nat) (reason : String) (jitter : ℚ)

/-- One asynchronous occurrence.
* `mountFire`: the 50 ms mount timer (lines 348–352).
* `unmount` = `stop()`: the effect cleanup (lines 354–359).
* `manualReconnect` = `forceReconnect()` (lines 284–294): resets the attempt
  counter, cleans up, and arms an untracked 100 ms grace timer.
* `graceFire`: one grace timer fires; its handler checks only `isMounted`.
* `reconnectFire`: the backoff timer fires (lines 125–129).
* `connTimeoutFire`: the 10 s connection timeout fires.
* `pingFire`: a ping tick; sending mutates no modelled state.
* visibility/online/offline: the document and window listeners
  (lines 297–338); they exist only while mounted.
* `deliverOpen/Message/Error/Close`: the environment delivers a transport
  event; a socket can open only from CONNECTING, message only while OPEN,
  and close from any not-yet-CLOSED state.  When the event fires the
  WebSocket's ready state has already changed; then the handler runs if the
  slots are still attached.  `deliverError` runs `ws.onerror`, which only
  logs. -/
def stepFn : Step → SessionState → SessionState
  | .mountFire, s =>
      if s.mountTimer then
        let s1 := { s with mountTimer := false }
        if s1.isMounted then connect s1 else s1
      else s
  | .unmount, s =>
      cleanup true { s with mountTimer := false, isMounted := false }
  | .manualReconnect, s =>
      let s1 := cleanup true { s with reconnectAttempts := 0 }
      { s1 with graceTimers := s1.graceTimers + 1 }
  | .graceFire, s =>
      match s.graceTimers with
      | 0 => s
      | g + 1 =>
          let s1 := { s with graceTimers := g }
          if s1.isMounted then connect s1 else s1
  | .reconnectFire, s =>
      match s.reconnectTimeout with
      | none => s
      | some _ =>
          let s1 := { s with reconnectTimeout := none }
          if s1.isMounted && !s1.isCleaningUp then connect s1 else s1
  | .connTimeoutFire jitter, s =>
      match s.connectionTimeout with
      | none => s
      | some i => connTimeoutHandler i jitter { s with connectionTimeout := none }
  | .pingFire, s => s
  | .visibilityVisible, s =>
      if !s.isMounted then s
      else
        match s.wsRef with
        | some i =>
            if (s.sockets i).readyState = .opened then s
            else connect { s with reconnectAttempts := 0 }
        | none => connect { s with reconnectAttempts := 0 }
  | .networkOnline, s =>
      if !s.isMounted then s
      else connect { s with reconnectAttempts := 0 }
  | .networkOffline, s =>
      if !s.isMounted then s
      else { s with error := some .networkOffline, isConnected := false }
  | .deliverOpen sid, s =>
      if (s.sockets sid).readyState = .connecting then
        let s1 := setSock s sid (fun sk => { sk with readyState := .opened })
        if (s1.sockets sid).handlersAttached then wsOnOpen sid s1 else s1
      else s
  | .deliverMessage sid frame, s =>
      if (s.sockets sid).readyState = .opened ∧ (s.sockets sid).handlersAttached then
        wsOnMessage sid frame s
      else s
  | .deliverError _, s => s
  | .deliverClose sid code reason jitter, s =>
      if (s.sockets sid).readyState ≠ .closed then
        let s1 := setSock s sid (fun sk => { sk with readyState := .closed })
        if (s1.sockets sid).handlersAttached then wsOnClose sid code reason jitter s1 else s1
      else s

/-- State at mount time (lines 31–47 and 341–352): fresh React state, all
refs null, `isMountedRef` just set, the mount-delay timer pending. -/
def init : SessionState where
  data := none
  isConnected := false
  error := none
  signalHistory := []
  wsRef := none
  reconnectTimeout := none
  connectionTimeout := none
  pingInterval := false
  reconnectAttempts := 0
  isMounted := true
  isCleaningUp := false
  connectionState := .disconnected
  sockets := fun _ => ⟨.closed, false⟩
  nextId := 0
  graceTimers := 0
  mountTimer := true

/-- Interpretation of a list of occurrences, oldest first. -/
def runSteps (tr : List Step) (s : SessionState) : SessionState :=
  tr.foldl (fun st e => stepFn e st) s

/-- States the client can be in after any sequence of occurrences. -/
def Reachable (s : SessionState) : Prop :=
  ∃ tr : List Step, runSteps tr init = s

/-! ### Helper lemmas -/

@[simp] theorem setSock_wsRef (s : SessionState) (i : Nat) (f : Socket → Socket) :
    (setSock s i f).wsRef = s.wsRef := rfl

@[simp] theorem setSock_sockets_self (s : SessionState) (i : Nat) (f : Socket → Socket) :
    (setSock s i f).sockets i = f (s.sockets i) := by
  simp [setSock]

theorem setSock_sockets_other (s : SessionState) (i j : Nat) (f : Socket → Socket)
    (h : j ≠ i) : (setSock s i f).sockets j = s.sockets j := by
  simp [setSock, h]

/-- The components C1 lists: LatestSnapshot, HistoryBuffer, ConnectionState,
the connected flag, the attempt counter, all timers — and the error status. -/
def unchangedObs (s t : SessionState) : Prop :=
  t.data = s.data ∧ t.signalHistory = s.signalHistory ∧
  t.connectionState = s.connectionState ∧ t.isConnected = s.isConnected ∧
  t.reconnectAttempts = s.reconnectAttempts ∧
  t.reconnectTimeout = s.reconnectTimeout ∧ t.connectionTimeout = s.connectionTimeout ∧
  t.pingInterval = s.pingInterval ∧ t.graceTimers = s.graceTimers ∧
  t.mountTimer = s.mountTimer ∧ t.error = s.error

theorem unchangedObs_refl (s : SessionState) : unchangedObs s s := by
  simp [unchangedObs]

theorem unchangedObs_setSock (s : SessionState) (i : Nat) (f : Socket → Socket) :
    unchangedObs s (setSock s i f) := by
  simp [unchangedObs, setSock]

theorem unchangedObs_trans {s t u : SessionState}
    (h1 : unchangedObs s t) (h2 : unchangedObs t u) : unchangedObs s u := by
  obtain ⟨a1, b1, c1, d1, e1, f1, g1, h1', i1, j1, k1⟩ := h1
  obtain ⟨a2, b2, c2, d2, e2, f2, g2, h2', i2, j2, k2⟩ := h2
  exact ⟨a2.trans a1, b2.trans b1, c2.trans c1, d2.trans d1, e2.trans e1,
    f2.trans f1, g2.trans g1, h2'.trans h1', i2.trans i1, j2.trans j1, k2.trans k1⟩

/-! ### C1: stale-event immunity -/

/-- C1: an open/message/error/close event originating from a socket that is
no longer the one in `wsRef` mutates none of LatestSnapshot, HistoryBuffer,
ConnectionState, the connected flag, the attempt counter, the timers, or the
error status. -/
theorem stale_event_immunity (s : SessionState) (sid : Nat) (h : s.wsRef ≠ some sid) :
    unchangedObs s (stepFn (.deliverOpen sid) s) ∧
    (∀ frame, unchangedObs s (stepFn (.deliverMessage sid frame) s)) ∧
    unchangedObs s (stepFn (.deliverError sid) s) ∧
    (∀ code reason jitter, unchangedObs s (stepFn (.deliverClose sid code reason jitter) s)) := by
  refine ⟨?_, ?_, ?_, ?_⟩
  · simp only [stepFn]
    split
    · split
      · rw [wsOnOpen, if_pos (by simpa using h)]
        exact unchangedObs_trans (unchangedObs_setSock s sid _) (unchangedObs_setSock _ sid _)
      · exact unchangedObs_setSock s sid _
    · exact unchangedObs_refl s
  · intro frame
    simp only [stepFn]
    split
    · rw [wsOnMessage.eq_def, if_pos h]
      exact unchangedObs_refl s
    · exact unchangedObs_refl s
  · exact unchangedObs_refl s
  · intro code reason jitter
    simp only [stepFn]
    split
    · split
      · rw [wsOnClose, if_pos (by simpa using h)]
        exact unchangedObs_setSock s sid _
      · exact unchangedObs_setSock s sid _
    · exact unchangedObs_refl s

/-- Witness for C1 at a concrete input: at mount time no socket is current,
so events from socket 0 are stale. -/
theorem stale_event_immunity_witness :
    init.wsRef ≠ some 0 ∧
    (unchangedObs init (stepFn (.deliverOpen 0) init) ∧
      (∀ frame, unchangedObs init (stepFn (.deliverMessage 0 frame) init)) ∧
      unchangedObs init (stepFn (.deliverError 0) init) ∧
      (∀ code reason jitter, unchangedObs init (stepFn (.deliverClose 0 code reason jitter) init))) :=
  ⟨by decide, stale_event_immunity init 0 (by decide)⟩

/-! ### C7: malformed frames are non-fatal -/

/-- C7: a frame that fails to parse as JSON is logged and discarded: the
step leaves the whole state — LatestSnapshot, HistoryBuffer, the error
status, the connection state, the socket world and every timer — exactly as
it was, so in particular an Open state stays Open, the connection is not
closed and no reconnect is scheduled. -/
theorem malformed_frame_nonfatal (s : SessionState) (sid : Nat) :
    stepFn (.deliverMessage sid none) s = s := by
  simp only [stepFn]
  split
  · rw [wsOnMessage.eq_def]
    split <;> rfl
  · rfl

/-! ### C10: missing-payload guard -/

/-- C10: a `market_data` or `signal_history` frame whose `data` field is
absent or null updates no state at all — even when the frame carries a
`signal_history` list, it is not applied. -/
theorem missing_payload_guard (s : SessionState) (sid : Nat) (m : WSMessage)
    (_ht : m.type = "market_data" ∨ m.type = "signal_history") (hd : m.data = none) :
    stepFn (.deliverMessage sid (some m)) s = s := by
  simp only [stepFn]
  split
  · rw [wsOnMessage.eq_def]
    split
    · rfl
    · simp [dispatchMessage, hd]
  · rfl

/-- Witness for C10: a `market_data` frame with no `data` field but with a
non-empty `signal_history` list changes nothing at mount state. -/
theorem missing_payload_guard_witness :
    (WSMessage.mk "market_data" none none none none
        (some [⟨"t", "BUY", "t", "X", 1, 0, 0, 0, 0⟩])).data = none ∧
    stepFn (.deliverMessage 0 (some (WSMessage.mk "market_data" none none none none
        (some [⟨"t", "BUY", "t", "X", 1, 0, 0, 0, 0⟩])))) init = init :=
  ⟨rfl, missing_payload_guard init 0 _ (Or.inl rfl) rfl⟩

/-! ### C3: intentional-vs-lost close classification -/

/-- C3: a close event for the current attempt, arriving while mounted and
not cleaning up, schedules no reconnect when the code/reason pair is
`(1000, "Client cleanup")`, and schedules exactly one reconnect (replacing
any pending one, with the attempt counter incremented exactly once) for
every other code/reason pair. -/
theorem close_classification (s : SessionState) (sid code : Nat) (reason : String) (jitter : ℚ)
    (hcur : s.wsRef = some sid)
    (hrs : (s.sockets sid).readyState ≠ .closed)
    (hat : (s.sockets sid).handlersAttached = true)
    (hm : s.isMounted = true) (hcl : s.isCleaningUp = false) :
    (code = 1000 ∧ reason = "Client cleanup" →
      (stepFn (.deliverClose sid code reason jitter) s).reconnectTimeout = none ∧
      (stepFn (.deliverClose sid code reason jitter) s).reconnectAttempts
        = s.reconnectAttempts) ∧
    (¬(code = 1000 ∧ reason = "Client cleanup") →
      (stepFn (.deliverClose sid code reason jitter) s).reconnectTimeout
        = some (computeDelay (s.reconnectAttempts + 1) jitter) ∧
      (stepFn (.deliverClose sid code reason jitter) s).reconnectAttempts
        = s.reconnectAttempts + 1) := by
  have hstep : stepFn (.deliverClose sid code reason jitter) s
      = wsOnClose sid code reason jitter
          (setSock s sid (fun sk => { sk with readyState := .closed })) := by
    simp only [stepFn]
    rw [if_pos hrs, if_pos (by simpa [setSock] using hat)]
  rw [hstep, wsOnClose, if_neg (by simp [hcur])]
  constructor
  · intro hint
    rw [if_neg (by simp [clearTimers, setSock, hcl, hm]), if_pos hint]
    exact ⟨rfl, rfl⟩
  · intro hlost
    rw [if_neg (by simp [clearTimers, setSock, hcl, hm]), if_neg hlost]
    rw [scheduleReconnect, if_neg (by simp [clearTimers, setSock, hm, hcl])]
    exact ⟨rfl, rfl⟩

/-- Witness for C3: after the mount-delay fires, socket 0 is the current
connecting attempt; a lost close (code 1006) schedules one reconnect and an
intentional close schedules none. -/
theorem close_classification_witness :
    (runSteps [Step.mountFire] init).wsRef = some 0 ∧
    ((1006 = 1000 ∧ "" = "Client cleanup" →
      (stepFn (.deliverClose 0 1006 "" 0) (runSteps [Step.mountFire] init)).reconnectTimeout
        = none ∧
      (stepFn (.deliverClose 0 1006 "" 0) (runSteps [Step.mountFire] init)).reconnectAttempts
        = (runSteps [Step.mountFire] init).reconnectAttempts) ∧
    (¬(1006 = 1000 ∧ "" = "Client cleanup") →
      (stepFn (.deliverClose 0 1006 "" 0) (runSteps [Step.mountFire] init)).reconnectTimeout
        = some (computeDelay ((runSteps [Step.mountFire] init).reconnectAttempts + 1) 0) ∧
      (stepFn (.deliverClose 0 1006 "" 0) (runSteps [Step.mountFire] init)).reconnectAttempts
        = (runSteps [Step.mountFire] init).reconnectAttempts + 1)) :=
  ⟨by decide, close_classification (runSteps [Step.mountFire] init) 0 1006 "" 0
    (by decide) (by decide) (by decide) (by decide) (by decide)⟩

/-! ### Shared facts about lost closes and the backoff delay -/

/-- Generic behaviour of a lost close on the current attempt: the attempt
counter is incremented once and the (single) pending reconnect timer holds
the delay computed with the incremented counter. -/
theorem deliverClose_lost (s : SessionState) (sid code : Nat) (reason : String) (jitter : ℚ)
    (hcur : s.wsRef = some sid)
    (hrs : (s.sockets sid).readyState ≠ .closed)
    (hat : (s.sockets sid).handlersAttached = true)
    (hm : s.isMounted = true) (hcl : s.isCleaningUp = false)
    (hlost : ¬(code = 1000 ∧ reason = "Client cleanup")) :
    (stepFn (.deliverClose sid code reason jitter) s).reconnectTimeout
      = some (computeDelay (s.reconnectAttempts + 1) jitter) ∧
    (stepFn (.deliverClose sid code reason jitter) s).reconnectAttempts
      = s.reconnectAttempts + 1 ∧
    (stepFn (.deliverClose sid code reason jitter) s).isMounted = s.isMounted ∧
    (stepFn (.deliverClose sid code reason jitter) s).isCleaningUp = s.isCleaningUp ∧
    (stepFn (.deliverClose sid code reason jitter) s).wsRef = s.wsRef ∧
    (stepFn (.deliverClose sid code reason jitter) s).sockets sid
      = { s.sockets sid with readyState := .closed } := by
  have hstep : stepFn (.deliverClose sid code reason jitter) s
      = wsOnClose sid code reason jitter
          (setSock s sid (fun sk => { sk with readyState := .closed })) := by
    simp only [stepFn]
    rw [if_pos hrs, if_pos (by simpa [setSock] using hat)]
  rw [hstep, wsOnClose, if_neg (by simp [hcur]),
    if_neg (by simp [clearTimers, setSock, hcl, hm]), if_neg hlost,
    scheduleReconnect, if_neg (by simp [clearTimers, setSock, hm, hcl])]
  refine ⟨rfl, rfl, by simp [clearTimers, setSock, hm],
    by simp [clearTimers, setSock, hcl], by simp [clearTimers, setSock, hcur], ?_⟩
  simp [clearTimers, setSock]

/-- `computeDelay 1 j = ⌊2000 + j⌋` lies in [2000, 3000) for j ∈ [0, 1000). -/
theorem computeDelay_one_bounds (j : ℚ) (hj0 : 0 ≤ j) (hj1 : j < 1000) :
    2000 ≤ computeDelay 1 j ∧ computeDelay 1 j < 3000 := by
  have hmin : min (RECONNECT_DELAY * (3 / 2 : ℚ) ^ (1 - 1)) MAX_RECONNECT_DELAY
      = (2000 : ℚ) := by
    rw [RECONNECT_DELAY, MAX_RECONNECT_DELAY, min_eq_left (by norm_num)]
    norm_num
  have h : computeDelay 1 j = Int.floor ((2000 : ℚ) + j) := by
    rw [computeDelay, hmin]
  constructor
  · rw [h, Int.le_floor]
    push_cast
    linarith
  · rw [h, Int.floor_lt]
    push_cast
    linarith

/-- `computeDelay 2 j = ⌊3000 + j⌋` lies in [3000, 4000) for j ∈ [0, 1000). -/
theorem computeDelay_two_bounds (j : ℚ) (hj0 : 0 ≤ j) (hj1 : j < 1000) :
    3000 ≤ computeDelay 2 j ∧ computeDelay 2 j < 4000 := by
  have hmin : min (RECONNECT_DELAY * (3 / 2 : ℚ) ^ (2 - 1)) MAX_RECONNECT_DELAY
      = (3000 : ℚ) := by
    rw [RECONNECT_DELAY, MAX_RECONNECT_DELAY, min_eq_left (by norm_num)]
    norm_num
  have h : computeDelay 2 j = Int.floor ((3000 : ℚ) + j) := by
    rw [computeDelay, hmin]
  constructor
  · rw [h, Int.le_floor]
    push_cast
    linarith
  · rw [h, Int.floor_lt]
    push_cast
    linarith

/-! ### C4: backoff formula and monotonicity -/

/-- A run of six consecutive lost closures with no intervening open, all
with jitter drawn as 0. -/
def backoffCexTrace : List Step :=
  [.mountFire, .deliverClose 0 1006 "" 0, .reconnectFire,
   .deliverClose 1 1006 "" 0, .reconnectFire, .deliverClose 2 1006 "" 0, .reconnectFire,
   .deliverClose 3 1006 "" 0, .reconnectFire, .deliverClose 4 1006 "" 0, .reconnectFire,
   .deliverClose 5 1006 "" 0]

/-- Counterexample to C4 as stated: after the 6th consecutive lost closure
(jitter drawn as 0, a value `Math.random() * 1000` admits), the scheduled
delay is 15187 ms, and there is no jitter j ∈ [0, 1000) with
15187 = min(2000·1.5⁵, 30000) + j: the base 2000·1.5⁵ = 15187.5 is
non-integral and `Math.floor` (line 120) pushes the scheduled total half a
millisecond below every value of the claimed form. -/
theorem backoff_formula_cex :
    (runSteps backoffCexTrace init).reconnectAttempts = 6 ∧
    (runSteps backoffCexTrace init).reconnectTimeout = some 15187 ∧
    ¬ ∃ j : ℚ, 0 ≤ j ∧ j < 1000 ∧
      (15187 : ℚ) = min (2000 * (3 / 2 : ℚ) ^ (6 - 1)) 30000 + j := by
  have hmin : min (2000 * (3 / 2 : ℚ) ^ (6 - 1)) 30000 = 30375 / 2 := by
    rw [min_eq_left (by norm_num)]
    norm_num
  have hval : computeDelay 6 0 = 15187 := by
    rw [computeDelay, RECONNECT_DELAY, MAX_RECONNECT_DELAY, add_zero, hmin,
      Int.floor_eq_iff]
    norm_num
  have hrt : (runSteps backoffCexTrace init).reconnectTimeout
      = some (computeDelay 6 0) := rfl
  refine ⟨by decide, by rw [hrt, hval], ?_⟩
  rintro ⟨j, hj0, _hj1, hje⟩
  rw [hmin] at hje
  linarith

/-- C4 (amended): `scheduleReconnect` increments the attempt counter before
computing, so the n-th consecutive lost closure uses attemptCount = n; the
scheduled delay is `⌊min(2000·1.5^(n−1), 30000) + j⌋` — within
(min + j − 1, min + j] rather than exactly `min + j`, because of
`Math.floor` — and with the jitter fixed it is nondecreasing in n up to the
30000 ms cap. -/
theorem backoff_formula (s : SessionState) (n : Nat) (j : ℚ)
    (hm : s.isMounted = true) (hcl : s.isCleaningUp = false)
    (hn : s.reconnectAttempts + 1 = n) (hj0 : 0 ≤ j) (hj1 : j < 1000) :
    (scheduleReconnect j s).reconnectAttempts = n ∧
    (scheduleReconnect j s).reconnectTimeout = some (computeDelay n j) ∧
    min (RECONNECT_DELAY * (3 / 2 : ℚ) ^ (n - 1)) MAX_RECONNECT_DELAY + j - 1
      < (computeDelay n j : ℚ) ∧
    (computeDelay n j : ℚ)
      ≤ min (RECONNECT_DELAY * (3 / 2 : ℚ) ^ (n - 1)) MAX_RECONNECT_DELAY + j ∧
    (0 : ℚ) ≤ j ∧ j < 1000 ∧
    (∀ m : Nat, n ≤ m → computeDelay n j ≤ computeDelay m j) := by
  refine ⟨?_, ?_, ?_, ?_, hj0, hj1, ?_⟩
  · rw [scheduleReconnect, if_neg (by simp [hm, hcl])]
    exact hn
  · rw [scheduleReconnect, if_neg (by simp [hm, hcl]), hn]
  · have := Int.sub_one_lt_floor
      (min (RECONNECT_DELAY * (3 / 2 : ℚ) ^ (n - 1)) MAX_RECONNECT_DELAY + j)
    rw [computeDelay]
    linarith
  · exact Int.floor_le _
  · intro m hnm
    apply Int.floor_mono
    have hpow : (3 / 2 : ℚ) ^ (n - 1) ≤ (3 / 2 : ℚ) ^ (m - 1) :=
      pow_le_pow_right₀ (by norm_num) (Nat.sub_le_sub_right hnm 1)
    have : RECONNECT_DELAY * (3 / 2 : ℚ) ^ (n - 1)
        ≤ RECONNECT_DELAY * (3 / 2 : ℚ) ^ (m - 1) := by
      apply mul_le_mul_of_nonneg_left hpow
      rw [RECONNECT_DELAY]
      norm_num
    exact add_le_add_right (min_le_min this le_rfl) j

/-- Witness for the amended C4 at mount state with n = 1, j = 0. -/
theorem backoff_formula_witness :
    init.reconnectAttempts + 1 = 1 ∧
    ((scheduleReconnect 0 init).reconnectAttempts = 1 ∧
      (scheduleReconnect 0 init).reconnectTimeout = some (computeDelay 1 0) ∧
      min (RECONNECT_DELAY * (3 / 2 : ℚ) ^ (1 - 1)) MAX_RECONNECT_DELAY + 0 - 1
        < (computeDelay 1 0 : ℚ) ∧
      (computeDelay 1 0 : ℚ)
        ≤ min (RECONNECT_DELAY * (3 / 2 : ℚ) ^ (1 - 1)) MAX_RECONNECT_DELAY + 0 ∧
      (0 : ℚ) ≤ 0 ∧ (0 : ℚ) < 1000 ∧
      (∀ m : Nat, 1 ≤ m → computeDelay 1 0 ≤ computeDelay m 0)) :=
  ⟨rfl, backoff_formula init 1 0 rfl rfl rfl le_rfl (by norm_num)⟩

/-! ### The socket-world invariant -/

@[simp] theorem clearTimers_wsRef (s : SessionState) : (clearTimers s).wsRef = s.wsRef := rfl

@[simp] theorem clearTimers_sockets (s : SessionState) :
    (clearTimers s).sockets = s.sockets := rfl

@[simp] theorem clearTimers_isCleaningUp (s : SessionState) :
    (clearTimers s).isCleaningUp = s.isCleaningUp := rfl

@[simp] theorem clearTimers_isMounted (s : SessionState) :
    (clearTimers s).isMounted = s.isMounted := rfl

theorem closeSock_handlers (sk : Socket) :
    (closeSock sk).handlersAttached = sk.handlersAttached := by
  cases h : sk.readyState <;> simp [closeSock, h]

theorem closeSock_not_live (sk : Socket) :
    (closeSock sk).readyState ≠ .connecting ∧ (closeSock sk).readyState ≠ .opened := by
  cases h : sk.readyState <;> simp [closeSock, h]

/-- The socket-world invariant: every socket that is CONNECTING or OPEN, and
every socket whose handler slots are still attached, is the one `wsRef`
currently holds; and the hook is never observed mid-cleanup (the flag is
reset before `cleanup` returns). -/
def Inv (s : SessionState) : Prop :=
  (∀ i, ((s.sockets i).readyState = .connecting ∨ (s.sockets i).readyState = .opened ∨
      (s.sockets i).handlersAttached = true) → s.wsRef = some i) ∧
  s.isCleaningUp = false

theorem inv_mk {s t : SessionState} (h : Inv s) (hs : t.sockets = s.sockets)
    (hw : t.wsRef = s.wsRef) (hc : t.isCleaningUp = s.isCleaningUp) : Inv t := by
  obtain ⟨h1, h2⟩ := h
  refine ⟨?_, by rw [hc, h2]⟩
  intro i hi
  rw [hs] at hi
  rw [hw]
  exact h1 i hi

theorem inv_init : Inv init := by
  refine ⟨?_, rfl⟩
  intro i hi
  rcases hi with hi | hi | hi <;> simp [init] at hi

/-- Everything `cleanup(true)` guarantees: the invariant is preserved, no
socket stays current, live or attached, all tracked timers are cancelled,
and only the intended fields change. -/
theorem cleanup_true_spec (s : SessionState) (h : Inv s) :
    Inv (cleanup true s) ∧ (cleanup true s).wsRef = none ∧
    (∀ i, ((cleanup true s).sockets i).handlersAttached = false) ∧
    (∀ i, ((cleanup true s).sockets i).readyState ≠ .connecting ∧
      ((cleanup true s).sockets i).readyState ≠ .opened) ∧
    (cleanup true s).reconnectTimeout = none ∧
    (cleanup true s).connectionTimeout = none ∧
    (cleanup true s).pingInterval = false ∧
    (cleanup true s).isMounted = s.isMounted ∧
    (cleanup true s).isCleaningUp = false ∧
    (cleanup true s).nextId = s.nextId ∧
    (cleanup true s).connectionState = .disconnected ∧
    (cleanup true s).mountTimer = s.mountTimer ∧
    (cleanup true s).graceTimers = s.graceTimers ∧
    (cleanup true s).data = s.data ∧
    (cleanup true s).signalHistory = s.signalHistory := by
  obtain ⟨h1, _⟩ := h
  cases hw : s.wsRef with
  | none =>
      have hc : cleanup true s
          = { clearTimers s with connectionState := .disconnected, isCleaningUp := false } := by
        simp only [cleanup, clearTimers_wsRef, hw]
      rw [hc]
      refine ⟨⟨?_, rfl⟩, hw, ?_, ?_, rfl, rfl, rfl, rfl, rfl, rfl, rfl, rfl, rfl, rfl, rfl⟩
      · intro i hi
        exact absurd ((h1 i hi).symm.trans hw) (by simp)
      · intro i
        cases ha : (s.sockets i).handlersAttached
        · exact ha
        · exact absurd ((h1 i (Or.inr (Or.inr ha))).symm.trans hw) (by simp)
      · intro i
        constructor
        · intro hl
          exact absurd ((h1 i (Or.inl hl)).symm.trans hw) (by simp)
        · intro hl
          exact absurd ((h1 i (Or.inr (Or.inl hl))).symm.trans hw) (by simp)
  | some k =>
      have hc : cleanup true s
          = { setSock (clearTimers s) k (fun sk => closeSock (detachSock sk)) with
              wsRef := none, connectionState := .disconnected, isCleaningUp := false } := by
        simp only [cleanup, clearTimers_wsRef, hw]
      have hsock : ∀ i, ((cleanup true s).sockets i).handlersAttached = false ∧
          ((cleanup true s).sockets i).readyState ≠ .connecting ∧
          ((cleanup true s).sockets i).readyState ≠ .opened := by
        intro i
        by_cases hik : i = k
        · subst hik
          rw [hc]
          have : ({ setSock (clearTimers s) i (fun sk => closeSock (detachSock sk)) with
              wsRef := none, connectionState := .disconnected,
              isCleaningUp := false } : SessionState).sockets i
              = closeSock (detachSock (s.sockets i)) := by
            simp [setSock, clearTimers]
          rw [this]
          exact ⟨(closeSock_handlers _).trans rfl, closeSock_not_live _⟩
        · have hne : ((cleanup true s).sockets i) = s.sockets i := by
            rw [hc]
            simp [setSock, clearTimers, hik]
          rw [hne]
          refine ⟨?_, ?_, ?_⟩
          · cases ha : (s.sockets i).handlersAttached
            · rfl
            · exact absurd (Option.some.inj ((h1 i (Or.inr (Or.inr ha))).symm.trans hw)) hik
          · intro hl
            exact absurd (Option.some.inj ((h1 i (Or.inl hl)).symm.trans hw)) hik
          · intro hl
            exact absurd (Option.some.inj ((h1 i (Or.inr (Or.inl hl))).symm.trans hw)) hik
      refine ⟨⟨?_, by rw [hc]⟩, by rw [hc], fun i => (hsock i).1, fun i => (hsock i).2,
        by rw [hc] <;> rfl, by rw [hc] <;> rfl, by rw [hc] <;> rfl, by rw [hc] <;> rfl, by rw [hc] <;> rfl,
        by rw [hc] <;> rfl, by rw [hc] <;> rfl, by rw [hc] <;> rfl, by rw [hc] <;> rfl, by rw [hc] <;> rfl,
        by rw [hc] <;> rfl⟩
      intro i hi
      rcases hi with hi | hi | hi
      · exact absurd hi (hsock i).2.1
      · exact absurd hi (hsock i).2.2
      · exact absurd hi (by simp [(hsock i).1])

/-- `openSocket` from a state with no current socket: the invariant is
preserved and the fresh socket becomes the sole current one. -/
theorem openSocket_spec (s : SessionState) (h : Inv s) (hw : s.wsRef = none) :
    Inv (openSocket s) ∧ (openSocket s).wsRef = some s.nextId ∧
    (openSocket s).nextId = s.nextId + 1 ∧
    (openSocket s).sockets s.nextId = ⟨.connecting, true⟩ ∧
    (openSocket s).connectionTimeout = some s.nextId ∧
    (openSocket s).isMounted = s.isMounted := by
  obtain ⟨h1, h2⟩ := h
  refine ⟨⟨?_, h2⟩, rfl, rfl, by simp [openSocket, clearTimers], rfl, rfl⟩
  intro i hi
  by_cases hik : i = s.nextId
  · subst hik
    rfl
  · have hsk : (openSocket s).sockets i = s.sockets i := by
      simp [openSocket, clearTimers, hik]
    rw [hsk] at hi
    exact absurd ((h1 i hi).symm.trans hw) (by simp)

/-- `connect` preserves the socket-world invariant. -/
theorem inv_connect (s : SessionState) (h : Inv s) : Inv (connect s) := by
  rw [connect.eq_def]
  split
  · exact h
  · split
    · rename_i i hw
      split
      · exact h
      · split
        · exact h
        · rename_i hop hcon
          have hm : Inv { setSock s i detachSock with wsRef := none } ∧
              ({ setSock s i detachSock with wsRef := none } : SessionState).wsRef = none := by
            refine ⟨⟨?_, h.2⟩, rfl⟩
            intro j hj
            by_cases hji : j = i
            · subst hji
              have hsk : ({ setSock s j detachSock with wsRef := none } :
                  SessionState).sockets j = detachSock (s.sockets j) := by
                simp [setSock]
              rw [hsk] at hj
              rcases hj with hj | hj | hj
              · exact absurd hj (by simpa [detachSock] using hcon)
              · exact absurd hj (by simpa [detachSock] using hop)
              · exact absurd hj (by simp [detachSock])
            · have hsk : ({ setSock s i detachSock with wsRef := none } :
                  SessionState).sockets j = s.sockets j := by
                simp [setSock, hji]
              rw [hsk] at hj
              exact absurd (Option.some.inj ((h.1 j hj).symm.trans hw)) hji
          exact (openSocket_spec _ hm.1 hm.2).1
    · rename_i hw
      exact (openSocket_spec s h hw).1

/-- `scheduleReconnect` leaves sockets, `wsRef` and the cleanup flag alone. -/
theorem inv_scheduleReconnect (jitter : ℚ) (s : SessionState) (h : Inv s) :
    Inv (scheduleReconnect jitter s) := by
  rw [scheduleReconnect]
  split
  · exact h
  · exact inv_mk h rfl rfl rfl

/-- `dispatchMessage` only touches `data`, `error` and `signalHistory`. -/
theorem dispatchMessage_frame (m : WSMessage) (s : SessionState) :
    (dispatchMessage m s).sockets = s.sockets ∧ (dispatchMessage m s).wsRef = s.wsRef ∧
    (dispatchMessage m s).isCleaningUp = s.isCleaningUp ∧
    (dispatchMessage m s).isMounted = s.isMounted ∧
    (dispatchMessage m s).reconnectTimeout = s.reconnectTimeout ∧
    (dispatchMessage m s).connectionTimeout = s.connectionTimeout ∧
    (dispatchMessage m s).pingInterval = s.pingInterval ∧
    (dispatchMessage m s).reconnectAttempts = s.reconnectAttempts ∧
    (dispatchMessage m s).connectionState = s.connectionState ∧
    (dispatchMessage m s).isConnected = s.isConnected ∧
    (dispatchMessage m s).nextId = s.nextId ∧
    (dispatchMessage m s).graceTimers = s.graceTimers ∧
    (dispatchMessage m s).mountTimer = s.mountTimer := by
  unfold dispatchMessage
  repeat' split
  all_goals exact ⟨rfl, rfl, rfl, rfl, rfl, rfl, rfl, rfl, rfl, rfl, rfl, rfl, rfl⟩

/-- Every step preserves the socket-world invariant. -/
theorem inv_step (e : Step) (s : SessionState) (h : Inv s) : Inv (stepFn e s) := by
  cases e with
  | mountFire =>
      rw [stepFn]
      split
      · dsimp only
        split
        · exact inv_connect _ (inv_mk h rfl rfl rfl)
        · exact inv_mk h rfl rfl rfl
      · exact h
  | unmount =>
      exact (cleanup_true_spec { s with mountTimer := false, isMounted := false }
        (inv_mk h rfl rfl rfl)).1
  | manualReconnect =>
      exact inv_mk (cleanup_true_spec { s with reconnectAttempts := 0 }
        (inv_mk h rfl rfl rfl)).1 rfl rfl rfl
  | graceFire =>
      rw [stepFn]
      split
      · exact h
      · dsimp only
        split
        · exact inv_connect _ (inv_mk h rfl rfl rfl)
        · exact inv_mk h rfl rfl rfl
  | reconnectFire =>
      rw [stepFn]
      split
      · exact h
      · dsimp only
        split
        · exact inv_connect _ (inv_mk h rfl rfl rfl)
        · exact inv_mk h rfl rfl rfl
  | connTimeoutFire jitter =>
      rw [stepFn]
      split
      · exact h
      · rename_i i _
        rw [connTimeoutHandler]
        dsimp only
        have h0 : Inv { s with connectionTimeout := none } := inv_mk h rfl rfl rfl
        split
        · rename_i hcap
          have h1 : Inv (setSock { s with connectionTimeout := none } i closeSock) := by
            refine ⟨?_, h0.2⟩
            intro j hj
            by_cases hji : j = i
            · subst hji
              exact hcap.1
            · have hsk : (setSock { s with connectionTimeout := none } i closeSock).sockets j
                  = s.sockets j := by
                simp [setSock, hji]
              rw [hsk] at hj
              exact h.1 j hj
          split
          · exact inv_scheduleReconnect _ _ (inv_mk h1 rfl rfl rfl)
          · exact inv_mk h1 rfl rfl rfl
        · exact h0
  | pingFire => exact h
  | visibilityVisible =>
      rw [stepFn]
      split
      · exact h
      · split
        · split
          · exact h
          · exact inv_connect _ (inv_mk h rfl rfl rfl)
        · exact inv_connect _ (inv_mk h rfl rfl rfl)
  | networkOnline =>
      rw [stepFn]
      split
      · exact h
      · exact inv_connect _ (inv_mk h rfl rfl rfl)
  | networkOffline =>
      rw [stepFn]
      split
      · exact h
      · exact inv_mk h rfl rfl rfl
  | deliverOpen sid =>
      rw [stepFn]
      split
      · dsimp only
        rename_i hcon
        have hcur : s.wsRef = some sid := h.1 sid (Or.inl hcon)
        have h1 : Inv (setSock s sid (fun sk => { sk with readyState := .opened })) := by
          refine ⟨?_, h.2⟩
          intro j hj
          by_cases hji : j = sid
          · subst hji
            exact hcur
          · have hsk : (setSock s sid (fun sk => { sk with readyState := .opened })).sockets j
                = s.sockets j := by
              simp [setSock, hji]
            rw [hsk] at hj
            exact h.1 j hj
        split
        · rw [wsOnOpen, if_neg (by simp [hcur])]
          exact inv_mk h1 rfl rfl rfl
        · exact h1
      · exact h
  | deliverMessage sid frame =>
      rw [stepFn]
      split
      · rw [wsOnMessage.eq_def]
        split
        · exact h
        · split
          · exact h
          · exact inv_mk h (dispatchMessage_frame _ s).1 (dispatchMessage_frame _ s).2.1
              (dispatchMessage_frame _ s).2.2.1
      · exact h
  | deliverError sid => exact h
  | deliverClose sid code reason jitter =>
      rw [stepFn]
      split
      · dsimp only
        have h1 : Inv (setSock s sid (fun sk => { sk with readyState := .closed })) ∧
            (((setSock s sid (fun sk => { sk with readyState := .closed })).sockets
                sid).handlersAttached = true →
              s.wsRef = some sid) := by
          constructor
          · refine ⟨?_, h.2⟩
            intro j hj
            by_cases hji : j = sid
            · subst hji
              have hsk : (setSock s j (fun sk => { sk with readyState := .closed })).sockets j
                  = { s.sockets j with readyState := .closed } := by
                simp [setSock]
              rw [hsk] at hj
              rcases hj with hj | hj | hj
              · exact absurd hj (by simp)
              · exact absurd hj (by simp)
              · exact h.1 j (Or.inr (Or.inr hj))
            · have hsk : (setSock s sid (fun sk => { sk with readyState := .closed })).sockets j
                  = s.sockets j := by
                simp [setSock, hji]
              rw [hsk] at hj
              exact h.1 j hj
          · intro ha
            have hsk : (setSock s sid (fun sk => { sk with readyState := .closed })).sockets sid
                = { s.sockets sid with readyState := .closed } := by
              simp [setSock]
            rw [hsk] at ha
            exact h.1 sid (Or.inr (Or.inr ha))
        split
        · rename_i ha
          rw [wsOnClose, if_neg (by simp [h1.2 ha])]
          dsimp only
          split
          · exact inv_mk h1.1 rfl rfl rfl
          · split
            · exact inv_mk h1.1 rfl rfl rfl
            · exact inv_scheduleReconnect _ _ (inv_mk h1.1 rfl rfl rfl)
        · exact h1.1
      · exact h

theorem inv_runSteps (tr : List Step) (s : SessionState) (h : Inv s) :
    Inv (runSteps tr s) := by
  induction tr generalizing s with
  | nil => exact h
  | cons e tr ih => exact ih (stepFn e s) (inv_step e s h)

theorem reachable_inv (s : SessionState) (h : Reachable s) : Inv s := by
  obtain ⟨tr, htr⟩ := h
  rw [← htr]
  exact inv_runSteps tr init inv_init

/-- Projections of `scheduleReconnect` when the guard passes. -/
theorem scheduleReconnect_spec (jitter : ℚ) (s : SessionState)
    (hm : s.isMounted = true) (hcl : s.isCleaningUp = false) :
    (scheduleReconnect jitter s).reconnectAttempts = s.reconnectAttempts + 1 ∧
    (scheduleReconnect jitter s).reconnectTimeout
      = some (computeDelay (s.reconnectAttempts + 1) jitter) ∧
    (scheduleReconnect jitter s).sockets = s.sockets ∧
    (scheduleReconnect jitter s).wsRef = s.wsRef ∧
    (scheduleReconnect jitter s).isMounted = s.isMounted ∧
    (scheduleReconnect jitter s).isCleaningUp = s.isCleaningUp ∧
    (scheduleReconnect jitter s).connectionTimeout = s.connectionTimeout := by
  rw [scheduleReconnect, if_neg (by simp [hm, hcl])]
  exact ⟨rfl, rfl, rfl, rfl, rfl, rfl, rfl⟩

/-! ### C2: at most one live transport -/

/-- C2: in every reachable state at most one socket is OPEN (the invariant
in fact pins every OPEN or CONNECTING socket to the current `wsRef`), and
`connect` — the `start()` operation — returns the state unchanged, creating
no socket, whenever the current transport is already OPEN or CONNECTING. -/
theorem at_most_one_open (s : SessionState) (h : Reachable s) :
    (∀ i j, (s.sockets i).readyState = .opened → (s.sockets j).readyState = .opened →
      i = j) ∧
    (∀ i, s.wsRef = some i →
      ((s.sockets i).readyState = .opened ∨ (s.sockets i).readyState = .connecting) →
      connect s = s) := by
  have hi := reachable_inv s h
  constructor
  · intro i j hoi hoj
    exact Option.some.inj ((hi.1 i (Or.inr (Or.inl hoi))).symm.trans
      (hi.1 j (Or.inr (Or.inl hoj))))
  · intro i hw hl
    rw [connect.eq_def]
    split
    · rfl
    · rw [hw]
      dsimp only
      rcases hl with hl | hl
      · rw [if_pos hl]
      · rw [if_neg (by simp [hl]), if_pos hl]

/-- Witness for C2 at the reachable state where socket 0 has opened. -/
theorem at_most_one_open_witness :
    Reachable (runSteps [Step.mountFire, Step.deliverOpen 0] init) ∧
    ((∀ i j,
      ((runSteps [Step.mountFire, Step.deliverOpen 0] init).sockets i).readyState = .opened →
      ((runSteps [Step.mountFire, Step.deliverOpen 0] init).sockets j).readyState = .opened →
      i = j) ∧
    (∀ i, (runSteps [Step.mountFire, Step.deliverOpen 0] init).wsRef = some i →
      (((runSteps [Step.mountFire, Step.deliverOpen 0] init).sockets i).readyState = .opened ∨
       ((runSteps [Step.mountFire, Step.deliverOpen 0] init).sockets i).readyState
         = .connecting) →
      connect (runSteps [Step.mountFire, Step.deliverOpen 0] init)
        = runSteps [Step.mountFire, Step.deliverOpen 0] init)) :=
  ⟨⟨[Step.mountFire, Step.deliverOpen 0], rfl⟩,
   at_most_one_open (runSteps [Step.mountFire, Step.deliverOpen 0] init)
     ⟨[Step.mountFire, Step.deliverOpen 0], rfl⟩⟩

/-! ### C8: reset on success -/

/-- C8: every transition to Open zeroes the reconnect attempt counter, and a
lost closure arriving with the counter at 0 schedules its delay with
attemptCount = 1, i.e. `⌊2000 + j⌋ ∈ [2000, 3000)`, no matter how many
failures preceded the Open. -/
theorem reset_on_success :
    (∀ (s : SessionState) (sid : Nat),
      s.wsRef = some sid → (s.sockets sid).readyState = .connecting →
      (s.sockets sid).handlersAttached = true →
      (stepFn (.deliverOpen sid) s).reconnectAttempts = 0 ∧
      (stepFn (.deliverOpen sid) s).connectionState = .connected) ∧
    (∀ (s : SessionState) (sid code : Nat) (reason : String) (j : ℚ),
      s.reconnectAttempts = 0 → s.wsRef = some sid →
      (s.sockets sid).readyState ≠ .closed → (s.sockets sid).handlersAttached = true →
      s.isMounted = true → s.isCleaningUp = false →
      ¬(code = 1000 ∧ reason = "Client cleanup") → 0 ≤ j → j < 1000 →
      (stepFn (.deliverClose sid code reason j) s).reconnectTimeout
        = some (computeDelay 1 j) ∧
      2000 ≤ computeDelay 1 j ∧ computeDelay 1 j < 3000) := by
  constructor
  · intro s sid hcur hrs hat
    simp only [stepFn]
    rw [if_pos hrs, if_pos (by simpa [setSock] using hat), wsOnOpen,
      if_neg (by simp [hcur])]
    exact ⟨rfl, rfl⟩
  · intro s sid code reason j ha hcur hrs hat hm hcl hlost hj0 hj1
    have h := (deliverClose_lost s sid code reason j hcur hrs hat hm hcl hlost).1
    rw [ha] at h
    exact ⟨h, computeDelay_one_bounds j hj0 hj1⟩

/-- Witness for C8: socket 0 opens after the mount delay (counter drops to
0); a lost close on the open socket schedules `⌊2000⌋ = 2000 ∈ [2000, 3000)`. -/
theorem reset_on_success_witness :
    ((runSteps [Step.mountFire] init).sockets 0).readyState = ReadyState.connecting ∧
    (stepFn (.deliverOpen 0) (runSteps [Step.mountFire] init)).reconnectAttempts = 0 ∧
    ((stepFn (.deliverClose 0 1006 "" 0)
        (stepFn (.deliverOpen 0) (runSteps [Step.mountFire] init))).reconnectTimeout
      = some (computeDelay 1 0) ∧
      2000 ≤ computeDelay 1 0 ∧ computeDelay 1 0 < 3000) :=
  ⟨by decide,
   (reset_on_success.1 (runSteps [Step.mountFire] init) 0 (by decide) (by decide) (by decide)).1,
   reset_on_success.2 (stepFn (.deliverOpen 0) (runSteps [Step.mountFire] init)) 0 1006 "" 0
     (by decide) (by decide) (by decide) (by decide) (by decide) (by decide) (by decide)
     le_rfl (by norm_num)⟩

/-! ### C6: stop is idempotent and final -/

attribute [ext] SessionState

/-- Unconditional field accounting for `cleanup(true)`. -/
theorem cleanup_true_fields (s : SessionState) :
    (cleanup true s).wsRef = none ∧ (cleanup true s).reconnectTimeout = none ∧
    (cleanup true s).connectionTimeout = none ∧ (cleanup true s).pingInterval = false ∧
    (cleanup true s).connectionState = .disconnected ∧ (cleanup true s).isCleaningUp = false ∧
    (cleanup true s).isMounted = s.isMounted ∧ (cleanup true s).mountTimer = s.mountTimer ∧
    (cleanup true s).graceTimers = s.graceTimers ∧ (cleanup true s).nextId = s.nextId ∧
    (cleanup true s).data = s.data ∧ (cleanup true s).signalHistory = s.signalHistory ∧
    (cleanup true s).reconnectAttempts = s.reconnectAttempts := by
  cases hw : s.wsRef <;>
    simp [cleanup, clearTimers, setSock, hw]

/-- `cleanup(true)` leaves the socket world alone when no socket is current. -/
theorem cleanup_true_sockets_of_none (s : SessionState) (hw : s.wsRef = none) :
    (cleanup true s).sockets = s.sockets := by
  simp [cleanup, clearTimers, hw]

/-- `cleanup(true)` is the identity on a state it has already normalised. -/
theorem cleanup_true_eq_self (t : SessionState) (hw : t.wsRef = none)
    (h1 : t.reconnectTimeout = none) (h2 : t.connectionTimeout = none)
    (h3 : t.pingInterval = false) (h4 : t.connectionState = .disconnected)
    (h5 : t.isCleaningUp = false) : cleanup true t = t := by
  have hc : cleanup true t
      = { clearTimers t with connectionState := .disconnected, isCleaningUp := false } := by
    simp only [cleanup, clearTimers_wsRef, hw]
  rw [hc, clearTimers]
  apply SessionState.ext <;>
    first
      | rfl
      | exact h1.symm
      | exact h2.symm
      | exact h3.symm
      | exact h4.symm
      | exact h5.symm

/-- Calling `stop()` twice is the same as calling it once, on every state. -/
theorem unmount_idem (s : SessionState) :
    stepFn .unmount (stepFn .unmount s) = stepFn .unmount s := by
  obtain ⟨hw, h1, h2, h3, h4, h5, him, hmt, _⟩ :=
    cleanup_true_fields { s with mountTimer := false, isMounted := false }
  have hR : ({ stepFn Step.unmount s with mountTimer := false, isMounted := false }
      : SessionState) = stepFn Step.unmount s := by
    apply SessionState.ext <;>
      first
        | rfl
        | exact him.symm
        | exact hmt.symm
  calc stepFn .unmount (stepFn .unmount s)
      = cleanup true { stepFn Step.unmount s with
          mountTimer := false, isMounted := false } := rfl
    _ = cleanup true (stepFn Step.unmount s) := by rw [hR]
    _ = stepFn .unmount s := cleanup_true_eq_self _ hw h1 h2 h3 h4 h5

/-- The terminal shape `stop()` leaves behind: unmounted, no current socket,
no tracked timer pending, every handler slot detached. -/
def Stopped (s : SessionState) : Prop :=
  s.isMounted = false ∧ s.isCleaningUp = false ∧ s.wsRef = none ∧
  s.reconnectTimeout = none ∧ s.connectionTimeout = none ∧ s.pingInterval = false ∧
  s.mountTimer = false ∧ s.connectionState = .disconnected ∧
  (∀ i, (s.sockets i).handlersAttached = false)

theorem unmount_stopped (s : SessionState) (h : Inv s) : Stopped (stepFn .unmount s) := by
  obtain ⟨_, hw, hdet, _, hrt, hct, hpi, him, hicu, _, hcs, hmt, _⟩ :=
    cleanup_true_spec { s with mountTimer := false, isMounted := false } (inv_mk h rfl rfl rfl)
  exact ⟨him, hicu, hw, hrt, hct, hpi, hmt, hcs, hdet⟩

/-- After `stop()` every further occurrence keeps the session stopped: no
timer handler does anything, no transport is ever created (`nextId` is
frozen), no socket becomes current and no reconnect is ever scheduled. -/
theorem stopped_step (e : Step) (s : SessionState) (h : Stopped s) :
    Stopped (stepFn e s) ∧ (stepFn e s).nextId = s.nextId := by
  obtain ⟨him, hicu, hw, hrt, hct, hpi, hmt, hcs, hdet⟩ := h
  cases e with
  | mountFire =>
      rw [stepFn, if_neg (by simp [hmt])]
      exact ⟨⟨him, hicu, hw, hrt, hct, hpi, hmt, hcs, hdet⟩, rfl⟩
  | unmount =>
      obtain ⟨hw2, h1, h2, h3, h4, h5, him2, hmt2, _, hni, _⟩ :=
        cleanup_true_fields { s with mountTimer := false, isMounted := false }
      have hso : (cleanup true ({ s with mountTimer := false, isMounted := false }
          : SessionState)).sockets = s.sockets :=
        cleanup_true_sockets_of_none _ hw
      refine ⟨⟨him2.trans rfl, h5, hw2, h1, h2, h3, hmt2.trans rfl, h4, ?_⟩, hni⟩
      intro i
      show ((cleanup true ({ s with mountTimer := false, isMounted := false }
        : SessionState)).sockets i).handlersAttached = false
      rw [hso]
      exact hdet i
  | manualReconnect =>
      obtain ⟨hw2, h1, h2, h3, h4, h5, him2, hmt2, _, hni, _⟩ :=
        cleanup_true_fields { s with reconnectAttempts := 0 }
      have hso : (cleanup true ({ s with reconnectAttempts := 0 }
          : SessionState)).sockets = s.sockets :=
        cleanup_true_sockets_of_none _ hw
      refine ⟨⟨him2.trans him, h5, hw2, h1, h2, h3, hmt2.trans hmt, h4, ?_⟩, hni⟩
      intro i
      show ((cleanup true ({ s with reconnectAttempts := 0 }
        : SessionState)).sockets i).handlersAttached = false
      rw [hso]
      exact hdet i
  | graceFire =>
      rw [stepFn]
      cases hg : s.graceTimers with
      | zero => exact ⟨⟨him, hicu, hw, hrt, hct, hpi, hmt, hcs, hdet⟩, rfl⟩
      | succ g =>
          dsimp only
          rw [if_neg (by simp [him])]
          exact ⟨⟨him, hicu, hw, hrt, hct, hpi, hmt, hcs, hdet⟩, rfl⟩
  | reconnectFire =>
      rw [stepFn, hrt]
      exact ⟨⟨him, hicu, hw, hrt, hct, hpi, hmt, hcs, hdet⟩, rfl⟩
  | connTimeoutFire jitter =>
      rw [stepFn, hct]
      exact ⟨⟨him, hicu, hw, hrt, hct, hpi, hmt, hcs, hdet⟩, rfl⟩
  | pingFire =>
      exact ⟨⟨him, hicu, hw, hrt, hct, hpi, hmt, hcs, hdet⟩, rfl⟩
  | visibilityVisible =>
      rw [stepFn, if_pos (by simp [him])]
      exact ⟨⟨him, hicu, hw, hrt, hct, hpi, hmt, hcs, hdet⟩, rfl⟩
  | networkOnline =>
      rw [stepFn, if_pos (by simp [him])]
      exact ⟨⟨him, hicu, hw, hrt, hct, hpi, hmt, hcs, hdet⟩, rfl⟩
  | networkOffline =>
      rw [stepFn, if_pos (by simp [him])]
      exact ⟨⟨him, hicu, hw, hrt, hct, hpi, hmt, hcs, hdet⟩, rfl⟩
  | deliverOpen sid =>
      rw [stepFn]
      split
      · rw [if_neg (by simp [setSock, hdet sid])]
        refine ⟨⟨him, hicu, hw, hrt, hct, hpi, hmt, hcs, ?_⟩, rfl⟩
        intro i
        by_cases hij : i = sid
        · subst hij
          simp [setSock, hdet i]
        · simp [setSock, hij, hdet i]
      · exact ⟨⟨him, hicu, hw, hrt, hct, hpi, hmt, hcs, hdet⟩, rfl⟩
  | deliverMessage sid frame =>
      rw [stepFn, if_neg (by simp [hdet sid])]
      exact ⟨⟨him, hicu, hw, hrt, hct, hpi, hmt, hcs, hdet⟩, rfl⟩
  | deliverError sid =>
      exact ⟨⟨him, hicu, hw, hrt, hct, hpi, hmt, hcs, hdet⟩, rfl⟩
  | deliverClose sid code reason jitter =>
      rw [stepFn]
      split
      · rw [if_neg (by simp [setSock, hdet sid])]
        refine ⟨⟨him, hicu, hw, hrt, hct, hpi, hmt, hcs, ?_⟩, rfl⟩
        intro i
        by_cases hij : i = sid
        · subst hij
          simp [setSock, hdet i]
        · simp [setSock, hij, hdet i]
      · exact ⟨⟨him, hicu, hw, hrt, hct, hpi, hmt, hcs, hdet⟩, rfl⟩

theorem stopped_run (tr : List Step) (s : SessionState) (h : Stopped s) :
    Stopped (runSteps tr s) ∧ (runSteps tr s).nextId = s.nextId := by
  induction tr generalizing s with
  | nil => exact ⟨h, rfl⟩
  | cons e tr ih =>
      obtain ⟨h1, h2⟩ := stopped_step e s h
      obtain ⟨h3, h4⟩ := ih (stepFn e s) h1
      exact ⟨h3, h4.trans h2⟩

/-- Counterexample to C6 as stated: `stop()` does not cancel every pending
timer.  After `forceReconnect()` the untracked 100 ms grace timer is
pending (`graceTimers = 1`); `stop()` completes (unmounted, cleanup done)
with that timer still pending — the hook holds no ref with which to cancel
it.  (Its handler then no-ops via the mounted flag, per the amended
theorem.) -/
theorem stop_cancels_cex :
    (runSteps [Step.manualReconnect, Step.unmount] init).isMounted = false ∧
    (runSteps [Step.manualReconnect, Step.unmount] init).graceTimers = 1 :=
  ⟨by decide, by decide⟩

/-- C6 (amended): `stop()` is idempotent (a second call is a no-op on the
whole state); it synchronously cancels every tracked timer (reconnect,
connection-timeout, ping interval, mount delay) and detaches every handler
slot before returning; the untracked `forceReconnect` grace timer is not
cancelled, but after `stop()` completes no handler or timer callback
mutates the session and no reconnection ever occurs: under every further
sequence of occurrences the session stays unmounted and disconnected with
no current socket, no pending reconnect, and no transport ever created
(`nextId` frozen). -/
theorem stop_idempotent_final (s : SessionState) (h : Inv s) :
    stepFn .unmount (stepFn .unmount s) = stepFn .unmount s ∧
    ((stepFn .unmount s).reconnectTimeout = none ∧
      (stepFn .unmount s).connectionTimeout = none ∧
      (stepFn .unmount s).pingInterval = false ∧
      (stepFn .unmount s).mountTimer = false ∧
      (∀ i, ((stepFn .unmount s).sockets i).handlersAttached = false)) ∧
    (∀ tr : List Step,
      (runSteps tr (stepFn .unmount s)).isMounted = false ∧
      (runSteps tr (stepFn .unmount s)).wsRef = none ∧
      (runSteps tr (stepFn .unmount s)).reconnectTimeout = none ∧
      (runSteps tr (stepFn .unmount s)).connectionState = .disconnected ∧
      (runSteps tr (stepFn .unmount s)).nextId = (stepFn .unmount s).nextId) := by
  have hst := unmount_stopped s h
  refine ⟨unmount_idem s, ⟨hst.2.2.2.1, hst.2.2.2.2.1, hst.2.2.2.2.2.1,
    hst.2.2.2.2.2.2.1, hst.2.2.2.2.2.2.2.2⟩, ?_⟩
  intro tr
  obtain ⟨⟨him, _, hw, hrt, _, _, _, hcs, _⟩, hni⟩ :=
    stopped_run tr (stepFn .unmount s) hst
  exact ⟨him, hw, hrt, hcs, hni⟩

/-- Witness for the amended C6 at the reachable state with an open socket
and a pending grace timer. -/
theorem stop_idempotent_final_witness :
    Inv (runSteps [Step.mountFire, Step.deliverOpen 0, Step.manualReconnect] init) ∧
    (stepFn .unmount (stepFn .unmount
        (runSteps [Step.mountFire, Step.deliverOpen 0, Step.manualReconnect] init))
      = stepFn .unmount
        (runSteps [Step.mountFire, Step.deliverOpen 0, Step.manualReconnect] init)) :=
  ⟨reachable_inv _ ⟨[Step.mountFire, Step.deliverOpen 0, Step.manualReconnect], rfl⟩,
   (stop_idempotent_final _ (reachable_inv _
     ⟨[Step.mountFire, Step.deliverOpen 0, Step.manualReconnect], rfl⟩)).1⟩

/-! ### C9: HistoryBuffer boundedness and frame effect -/

theorem connect_signalHistory (s : SessionState) :
    (connect s).signalHistory = s.signalHistory := by
  rw [connect.eq_def]
  repeat' split
  all_goals rfl

theorem scheduleReconnect_signalHistory (jitter : ℚ) (s : SessionState) :
    (scheduleReconnect jitter s).signalHistory = s.signalHistory := by
  rw [scheduleReconnect]
  split <;> rfl

theorem cleanup_signalHistory (b : Bool) (s : SessionState) :
    (cleanup b s).signalHistory = s.signalHistory := by
  cases b <;> cases hw : s.wsRef <;>
    simp [cleanup, clearTimers, setSock, hw]

theorem connTimeoutHandler_signalHistory (i : Nat) (jitter : ℚ) (s : SessionState) :
    (connTimeoutHandler i jitter s).signalHistory = s.signalHistory := by
  rw [connTimeoutHandler]
  dsimp only
  repeat' split
  all_goals first
    | rfl
    | exact (scheduleReconnect_signalHistory _ _).trans rfl

theorem wsOnOpen_signalHistory (i : Nat) (s : SessionState) :
    (wsOnOpen i s).signalHistory = s.signalHistory := by
  rw [wsOnOpen]
  split <;> rfl

theorem wsOnClose_signalHistory (i code : Nat) (reason : String) (jitter : ℚ)
    (s : SessionState) :
    (wsOnClose i code reason jitter s).signalHistory = s.signalHistory := by
  rw [wsOnClose]
  dsimp only
  repeat' split
  all_goals first
    | rfl
    | exact (scheduleReconnect_signalHistory _ _).trans rfl

/-- Every occurrence other than a frame delivery leaves HistoryBuffer alone. -/
theorem stepFn_signalHistory (e : Step) (s : SessionState)
    (hne : ∀ sid frame, e ≠ .deliverMessage sid frame) :
    (stepFn e s).signalHistory = s.signalHistory := by
  cases e with
  | mountFire =>
      rw [stepFn]
      try dsimp only
      repeat' split
      all_goals first | rfl | exact (connect_signalHistory _).trans rfl
  | unmount => exact (cleanup_signalHistory _ _).trans rfl
  | manualReconnect => exact (cleanup_signalHistory _ _).trans rfl
  | graceFire =>
      rw [stepFn]
      try dsimp only
      repeat' split
      all_goals first | rfl | exact (connect_signalHistory _).trans rfl
  | reconnectFire =>
      rw [stepFn]
      try dsimp only
      repeat' split
      all_goals first | rfl | exact (connect_signalHistory _).trans rfl
  | connTimeoutFire jitter =>
      rw [stepFn]
      split
      · rfl
      · exact (connTimeoutHandler_signalHistory _ _ _).trans rfl
  | pingFire => rfl
  | visibilityVisible =>
      rw [stepFn]
      try dsimp only
      repeat' split
      all_goals first | rfl | exact (connect_signalHistory _).trans rfl
  | networkOnline =>
      rw [stepFn]
      try dsimp only
      repeat' split
      all_goals first | rfl | exact (connect_signalHistory _).trans rfl
  | networkOffline =>
      rw [stepFn]
      split <;> rfl
  | deliverOpen sid =>
      rw [stepFn]
      try dsimp only
      repeat' split
      all_goals first | rfl | exact (wsOnOpen_signalHistory _ _).trans rfl
  | deliverMessage sid frame => exact absurd rfl (hne sid frame)
  | deliverError sid => rfl
  | deliverClose sid code reason jitter =>
      rw [stepFn]
      try dsimp only
      repeat' split
      all_goals first | rfl | exact (wsOnClose_signalHistory _ _ _ _ _).trans rfl

/-- Effect of one frame delivery on HistoryBuffer: unchanged, replaced by
the `signal_history` list of a `market_data` frame that has a payload, or
replaced by the (cast) payload of a `signal_history` frame. -/
theorem stepFn_message_signalHistory (sid : Nat) (frame : Option WSMessage)
    (s : SessionState) :
    (stepFn (.deliverMessage sid frame) s).signalHistory = s.signalHistory ∨
    (∃ m items, frame = some m ∧ m.type = "market_data" ∧ m.data ≠ none ∧
      m.signal_history = some items ∧
      (stepFn (.deliverMessage sid frame) s).signalHistory = items) ∨
    (∃ m fd, frame = some m ∧ m.type = "signal_history" ∧ m.data = some fd ∧
      (stepFn (.deliverMessage sid frame) s).signalHistory = historyCast fd) := by
  rcases frame with _ | m
  · refine Or.inl ?_
    rw [stepFn]
    split
    · rw [wsOnMessage.eq_def]
      split <;> rfl
    · rfl
  · rw [stepFn]
    split
    · rw [wsOnMessage.eq_def]
      split
      · exact Or.inl rfl
      · dsimp only
        rw [dispatchMessage.eq_def]
        split
        · rename_i hmd
          split
          · rename_i items hsl
            exact Or.inr (Or.inl ⟨m, items, rfl, hmd.1, hmd.2, hsl, rfl⟩)
          · exact Or.inl rfl
        · split
          · rename_i hsd
            split
            · rename_i fd hfd
              exact Or.inr (Or.inr ⟨m, fd, rfl, hsd.1, hfd, rfl⟩)
            · exact Or.inl rfl
          · exact Or.inl rfl
    · exact Or.inl rfl

/-- Modelled from the spec: the server (absent from `src/`; only the client
is in the repository) caps history payloads at a fixed maximum N, so every
delivered frame carries at most N history records — in its `signal_history`
field and in a `signal_history` frame's `data` field. -/
def framePayloadBoundB (N : Nat) : Option WSMessage → Bool
  | none => true
  | some m =>
      (match m.signal_history with
       | some items => decide (items.length ≤ N)
       | none => true) &&
      (match m.data with
       | some (.history items) => decide (items.length ≤ N)
       | _ => true)

/-- All frames delivered along a trace respect the server-side cap N. -/
def traceBoundB (N : Nat) : List Step → Bool
  | [] => true
  | .deliverMessage _ frame :: tr => framePayloadBoundB N frame && traceBoundB N tr
  | _ :: tr => traceBoundB N tr

theorem traceBoundB_cons_other (N : Nat) (e : Step) (tr : List Step)
    (hne : ∀ sid frame, e ≠ .deliverMessage sid frame) :
    traceBoundB N (e :: tr) = traceBoundB N tr := by
  cases e with
  | deliverMessage sid frame => exact absurd rfl (hne sid frame)
  | _ => rfl

theorem signalHistory_bounded (N : Nat) (tr : List Step) (s : SessionState)
    (hs : s.signalHistory.length ≤ N) (htr : traceBoundB N tr = true) :
    (runSteps tr s).signalHistory.length ≤ N := by
  induction tr generalizing s with
  | nil => exact hs
  | cons e tr ih =>
      have hrun : runSteps (e :: tr) s = runSteps tr (stepFn e s) := rfl
      rw [hrun]
      by_cases hmsg : ∀ sid frame, e ≠ Step.deliverMessage sid frame
      · rw [traceBoundB_cons_other N e tr hmsg] at htr
        apply ih _ _ htr
        rw [stepFn_signalHistory e s hmsg]
        exact hs
      · push_neg at hmsg
        obtain ⟨sid, frame, hef⟩ := hmsg
        subst hef
        rw [traceBoundB, Bool.and_eq_true] at htr
        obtain ⟨hf, htr'⟩ := htr
        apply ih _ _ htr'
        rcases stepFn_message_signalHistory sid frame s with hh | ⟨m, items, hfr, _, _, hsl, hh⟩
          | ⟨m, fd, hfr, _, hd, hh⟩
        · rw [hh]
          exact hs
        · rw [hh]
          subst hfr
          rw [framePayloadBoundB, hsl, Bool.and_eq_true] at hf
          exact of_decide_eq_true hf.1
        · rw [hh]
          subst hfr
          cases fd with
          | market d =>
              rw [historyCast]
              exact Nat.zero_le N
          | history items =>
              rw [historyCast]
              rw [framePayloadBoundB, hd, Bool.and_eq_true] at hf
              exact of_decide_eq_true hf.2

/-- Newest-first order on signal records: each record's server-assigned
`recorded_at` stamp (ISO 8601, so lexicographic order is chronological) is
at least that of every later record in the list. -/
def newestFirstB (items : List SignalHistoryItem) : Bool :=
  decide (items.Pairwise fun a b => b.recorded_at ≤ a.recorded_at)

/-- Modelled from the spec: the server (absent from `src/`; only the client
is in the repository) sends history payloads newest-first ("bounded ordered
sequence of past signal records ... (newest-first)").  The client stores
payloads verbatim, so the ordering is a property of the delivered frames:
this predicate states it for the `signal_history` field and for a
`signal_history` frame's `data` field. -/
def framePayloadOrderedB : Option WSMessage → Bool
  | none => true
  | some m =>
      (match m.signal_history with
       | some items => newestFirstB items
       | none => true) &&
      (match m.data with
       | some (.history items) => newestFirstB items
       | _ => true)

/-- All frames delivered along a trace are newest-first. -/
def traceOrderedB : List Step → Bool
  | [] => true
  | .deliverMessage _ frame :: tr => framePayloadOrderedB frame && traceOrderedB tr
  | _ :: tr => traceOrderedB tr

theorem traceOrderedB_cons_other (e : Step) (tr : List Step)
    (hne : ∀ sid frame, e ≠ .deliverMessage sid frame) :
    traceOrderedB (e :: tr) = traceOrderedB tr := by
  cases e with
  | deliverMessage sid frame => exact absurd rfl (hne sid frame)
  | _ => rfl

theorem newestFirstB_nil : newestFirstB [] = true := by
  simp [newestFirstB]

theorem signalHistory_ordered (tr : List Step) (s : SessionState)
    (hs : newestFirstB s.signalHistory = true) (htr : traceOrderedB tr = true) :
    newestFirstB (runSteps tr s).signalHistory = true := by
  induction tr generalizing s with
  | nil => exact hs
  | cons e tr ih =>
      have hrun : runSteps (e :: tr) s = runSteps tr (stepFn e s) := rfl
      rw [hrun]
      by_cases hmsg : ∀ sid frame, e ≠ Step.deliverMessage sid frame
      · rw [traceOrderedB_cons_other e tr hmsg] at htr
        apply ih _ _ htr
        rw [stepFn_signalHistory e s hmsg]
        exact hs
      · push_neg at hmsg
        obtain ⟨sid, frame, hef⟩ := hmsg
        subst hef
        rw [traceOrderedB, Bool.and_eq_true] at htr
        obtain ⟨hf, htr'⟩ := htr
        apply ih _ _ htr'
        rcases stepFn_message_signalHistory sid frame s with hh | ⟨m, items, hfr, _, _, hsl, hh⟩
          | ⟨m, fd, hfr, _, hd, hh⟩
        · rw [hh]
          exact hs
        · rw [hh]
          subst hfr
          rw [framePayloadOrderedB, hsl, Bool.and_eq_true] at hf
          exact hf.1
        · rw [hh]
          subst hfr
          cases fd with
          | market d =>
              rw [historyCast]
              exact newestFirstB_nil
          | history items =>
              rw [historyCast]
              rw [framePayloadOrderedB, hd, Bool.and_eq_true] at hf
              exact hf.2

/-- A frame delivery replaces HistoryBuffer only when it carries a full
history payload: a `market_data` frame with a payload and a history list,
or a `signal_history` frame with a payload. -/
def carriesHistory : Option WSMessage → Prop
  | none => False
  | some m => (m.type = "market_data" ∧ m.data ≠ none ∧ m.signal_history ≠ none) ∨
      (m.type = "signal_history" ∧ m.data ≠ none)

/-- The occurrences that can replace HistoryBuffer. -/
def isHistoryDelivery : Step → Prop
  | .deliverMessage _ frame => carriesHistory frame
  | _ => False

/-- C9: in every state reachable under server traffic that is capped at N
records and newest-first (both modelled from the spec, the server being
absent from `src/`), HistoryBuffer holds at most N records in newest-first
order; it is replaced wholesale exactly when a full history payload arrives
on the current open attempt (a `signal_history` frame, or a `market_data`
frame carrying a `signal_history` list), and every other frame and
occurrence leaves it untouched. -/
theorem history_buffer (N : Nat) (tr : List Step) (htr : traceBoundB N tr = true)
    (hord : traceOrderedB tr = true) :
    ((runSteps tr init).signalHistory.length ≤ N ∧
      newestFirstB (runSteps tr init).signalHistory = true) ∧
    (∀ e s, ¬ isHistoryDelivery e → (stepFn e s).signalHistory = s.signalHistory) ∧
    (∀ s sid m items, s.wsRef = some sid → (s.sockets sid).readyState = .opened →
      (s.sockets sid).handlersAttached = true →
      m.type = "signal_history" → m.data = some (.history items) →
      (stepFn (.deliverMessage sid (some m)) s).signalHistory = items) ∧
    (∀ s sid m items, s.wsRef = some sid → (s.sockets sid).readyState = .opened →
      (s.sockets sid).handlersAttached = true →
      m.type = "market_data" → m.data ≠ none → m.signal_history = some items →
      (stepFn (.deliverMessage sid (some m)) s).signalHistory = items) := by
  refine ⟨⟨signalHistory_bounded N tr init (Nat.zero_le N) htr,
    signalHistory_ordered tr init newestFirstB_nil hord⟩, ?_, ?_, ?_⟩
  · intro e s hnd
    by_cases hmsg : ∀ sid frame, e ≠ Step.deliverMessage sid frame
    · exact stepFn_signalHistory e s hmsg
    · push_neg at hmsg
      obtain ⟨sid, frame, hef⟩ := hmsg
      subst hef
      rcases stepFn_message_signalHistory sid frame s with hh | ⟨m, items, hfr, h1, h2, h3, _⟩
        | ⟨m, fd, hfr, h1, h2, _⟩
      · exact hh
      · subst hfr
        exact absurd (Or.inl ⟨h1, h2, by simp [h3]⟩) hnd
      · subst hfr
        exact absurd (Or.inr ⟨h1, by simp [h2]⟩) hnd
  · intro s sid m items hcur hrs hat hty hd
    rw [stepFn, if_pos ⟨hrs, hat⟩, wsOnMessage, if_neg (by simp [hcur]),
      dispatchMessage.eq_def]
    rw [if_neg (by simp [hty]), if_pos ⟨hty, by simp [hd]⟩, hd]
    rfl
  · intro s sid m items hcur hrs hat hty hd hsl
    rw [stepFn, if_pos ⟨hrs, hat⟩, wsOnMessage, if_neg (by simp [hcur]),
      dispatchMessage.eq_def]
    rw [if_pos ⟨hty, hd⟩, hsl]

/-- Witness for C9: under cap N = 1 and newest-first traffic, a
`signal_history` frame with one record replaces the buffer on the open
attempt, leaving it bounded and newest-first. -/
theorem history_buffer_witness :
    traceBoundB 1 [Step.mountFire, Step.deliverOpen 0,
      Step.deliverMessage 0 (some (WSMessage.mk "signal_history" none
        (some (.history [⟨"t", "BUY", "t", "X", 1, 0, 0, 0, 0⟩])) none none none))] = true ∧
    traceOrderedB [Step.mountFire, Step.deliverOpen 0,
      Step.deliverMessage 0 (some (WSMessage.mk "signal_history" none
        (some (.history [⟨"t", "BUY", "t", "X", 1, 0, 0, 0, 0⟩])) none none none))] = true ∧
    ((runSteps [Step.mountFire, Step.deliverOpen 0,
      Step.deliverMessage 0 (some (WSMessage.mk "signal_history" none
        (some (.history [⟨"t", "BUY", "t", "X", 1, 0, 0, 0, 0⟩])) none none none))]
      init).signalHistory.length ≤ 1 ∧
     newestFirstB (runSteps [Step.mountFire, Step.deliverOpen 0,
      Step.deliverMessage 0 (some (WSMessage.mk "signal_history" none
        (some (.history [⟨"t", "BUY", "t", "X", 1, 0, 0, 0, 0⟩])) none none none))]
      init).signalHistory = true) :=
  ⟨by decide, by decide,
   (history_buffer 1 [Step.mountFire, Step.deliverOpen 0,
      Step.deliverMessage 0 (some (WSMessage.mk "signal_history" none
        (some (.history [⟨"t", "BUY", "t", "X", 1, 0, 0, 0, 0⟩])) none none none))]
      (by decide) (by decide)).1⟩

/-! ### C5: connection-timeout behaviour (Scenario A) -/

/-- First attempt never opens; the 10 s timeout fires, then the environment
delivers the closed transport's close event (code 1006), both with jitter 0. -/
def scenarioACexTrace : List Step :=
  [.mountFire, .connTimeoutFire 0, .deliverClose 0 1006 "" 0]

/-- Counterexample to C5 as stated: the timeout handler closes the socket
and schedules a reconnect with attemptCount 1 — but it neither detaches the
handlers nor drops `wsRef`, so the close event the closed transport then
emits passes the identity check, clears that timer (line 252) and schedules
a second reconnect with attemptCount 2.  After the delivery the counter is 2
(two reconnects were scheduled, not one) and the pending delay is
3000 ∉ [2000, 3000). -/
theorem connection_timeout_cex :
    (runSteps scenarioACexTrace init).reconnectAttempts = 2 ∧
    (runSteps scenarioACexTrace init).reconnectTimeout = some 3000 ∧
    ¬((3000 : Int) < 3000) := by
  have hval : computeDelay 2 0 = 3000 := by
    rw [computeDelay, RECONNECT_DELAY, MAX_RECONNECT_DELAY, add_zero,
      min_eq_left (by norm_num),
      show (2000 * (3 / 2 : ℚ) ^ (2 - 1)) = ((3000 : ℤ) : ℚ) by norm_num,
      Int.floor_intCast]
  have hrt : (runSteps scenarioACexTrace init).reconnectTimeout
      = some (computeDelay 2 0) := rfl
  exact ⟨by decide, by rw [hrt, hval], by decide⟩

/-- C5 (amended): from any state in which the current attempt `i` is still
CONNECTING, the connection timeout (armed with CONNECTION_TIMEOUT = 10000 ms)
is pending and no failure has yet been counted, the timeout firing closes
the transport and schedules a reconnect computed with attemptCount 1, delay
∈ [2000, 3000), so attempt 2 would start 10000 + delay ∈ [12000, 13000) ms
after attempt 1 began — but only if the transport's close event does not
arrive first: when that close event is delivered it replaces the pending
reconnect with one computed with attemptCount 2 and delay ∈ [3000, 4000),
deferring attempt 2 to 13000–14000 ms. -/
theorem connection_timeout_behaviour (s : SessionState) (i : Nat) (j1 j2 : ℚ)
    (hto : s.connectionTimeout = some i) (hcur : s.wsRef = some i)
    (hrs : (s.sockets i).readyState = .connecting)
    (hat : (s.sockets i).handlersAttached = true)
    (hm : s.isMounted = true) (hcl : s.isCleaningUp = false)
    (ha : s.reconnectAttempts = 0)
    (hj10 : 0 ≤ j1) (hj11 : j1 < 1000) (hj20 : 0 ≤ j2) (hj21 : j2 < 1000) :
    CONNECTION_TIMEOUT = 10000 ∧
    ((stepFn (.connTimeoutFire j1) s).sockets i).readyState = .closing ∧
    (stepFn (.connTimeoutFire j1) s).reconnectAttempts = 1 ∧
    (stepFn (.connTimeoutFire j1) s).reconnectTimeout = some (computeDelay 1 j1) ∧
    (2000 ≤ computeDelay 1 j1 ∧ computeDelay 1 j1 < 3000) ∧
    (12000 ≤ CONNECTION_TIMEOUT + computeDelay 1 j1 ∧
      CONNECTION_TIMEOUT + computeDelay 1 j1 < 13000) ∧
    (stepFn (.deliverClose i 1006 "" j2) (stepFn (.connTimeoutFire j1) s)).reconnectAttempts
      = 2 ∧
    (stepFn (.deliverClose i 1006 "" j2) (stepFn (.connTimeoutFire j1) s)).reconnectTimeout
      = some (computeDelay 2 j2) ∧
    (3000 ≤ computeDelay 2 j2 ∧ computeDelay 2 j2 < 4000) ∧
    (13000 ≤ CONNECTION_TIMEOUT + computeDelay 2 j2 ∧
      CONNECTION_TIMEOUT + computeDelay 2 j2 < 14000) := by
  have hXm : ({ setSock { s with connectionTimeout := none } i closeSock with
      connectionState := ConnState.disconnected, error := some ErrMsg.connectionTimeoutMsg,
      isConnected := false } : SessionState).isMounted = true := hm
  have hXc : ({ setSock { s with connectionTimeout := none } i closeSock with
      connectionState := ConnState.disconnected, error := some ErrMsg.connectionTimeoutMsg,
      isConnected := false } : SessionState).isCleaningUp = false := hcl
  have hXa : ({ setSock { s with connectionTimeout := none } i closeSock with
      connectionState := ConnState.disconnected, error := some ErrMsg.connectionTimeoutMsg,
      isConnected := false } : SessionState).reconnectAttempts = 0 := ha
  have hXw : ({ setSock { s with connectionTimeout := none } i closeSock with
      connectionState := ConnState.disconnected, error := some ErrMsg.connectionTimeoutMsg,
      isConnected := false } : SessionState).wsRef = some i := hcur
  have hXs : ({ setSock { s with connectionTimeout := none } i closeSock with
      connectionState := ConnState.disconnected, error := some ErrMsg.connectionTimeoutMsg,
      isConnected := false } : SessionState).sockets i = closeSock (s.sockets i) := by
    simp [setSock]
  have ht : stepFn (.connTimeoutFire j1) s
      = scheduleReconnect j1
          { setSock { s with connectionTimeout := none } i closeSock with
            connectionState := ConnState.disconnected,
            error := some ErrMsg.connectionTimeoutMsg, isConnected := false } := by
    simp only [stepFn]
    rw [hto]
    dsimp only
    rw [connTimeoutHandler, if_pos ⟨hcur, by simp [hrs]⟩]
    dsimp only
    rw [if_pos hXm]
  obtain ⟨hsa, hst, hss, hsw, hsm, hsc, _⟩ := scheduleReconnect_spec j1 _ hXm hXc
  have hd1 := computeDelay_one_bounds j1 hj10 hj11
  have hd2 := computeDelay_two_bounds j2 hj20 hj21
  have hsock1 : ((stepFn (.connTimeoutFire j1) s).sockets i).readyState = .closing := by
    rw [ht, hss, hXs]
    simp [closeSock, hrs]
  have hattach1 : ((stepFn (.connTimeoutFire j1) s).sockets i).handlersAttached = true := by
    rw [ht, hss, hXs, closeSock_handlers]
    exact hat
  have hcur1 : (stepFn (.connTimeoutFire j1) s).wsRef = some i := by
    rw [ht, hsw]
    exact hXw
  have hm1 : (stepFn (.connTimeoutFire j1) s).isMounted = true := by
    rw [ht, hsm]
    exact hXm
  have hcl1 : (stepFn (.connTimeoutFire j1) s).isCleaningUp = false := by
    rw [ht, hsc]
    exact hXc
  have ha1 : (stepFn (.connTimeoutFire j1) s).reconnectAttempts = 1 := by
    rw [ht, hsa, hXa]
  have hrs1 : ((stepFn (.connTimeoutFire j1) s).sockets i).readyState ≠ .closed := by
    rw [hsock1]
    simp
  obtain ⟨hc1, hc2, _⟩ := deliverClose_lost (stepFn (.connTimeoutFire j1) s) i 1006 "" j2
    hcur1 hrs1 hattach1 hm1 hcl1 (by simp)
  rw [ha1] at hc1 hc2
  refine ⟨rfl, hsock1, ha1, ?_, hd1, ?_, hc2, hc1, hd2, ?_⟩
  · rw [ht, hst, hXa]
  · rw [CONNECTION_TIMEOUT]
    omega
  · rw [CONNECTION_TIMEOUT]
    omega

/-- Witness for the amended C5 at the mount state, jitter 0 for both draws. -/
theorem connection_timeout_behaviour_witness :
    (runSteps [Step.mountFire] init).connectionTimeout = some 0 ∧
    (CONNECTION_TIMEOUT = 10000 ∧
      ((stepFn (.connTimeoutFire 0) (runSteps [Step.mountFire] init)).sockets 0).readyState
        = .closing ∧
      (stepFn (.connTimeoutFire 0) (runSteps [Step.mountFire] init)).reconnectAttempts = 1 ∧
      (stepFn (.connTimeoutFire 0) (runSteps [Step.mountFire] init)).reconnectTimeout
        = some (computeDelay 1 0) ∧
      (2000 ≤ computeDelay 1 0 ∧ computeDelay 1 0 < 3000) ∧
      (12000 ≤ CONNECTION_TIMEOUT + computeDelay 1 0 ∧
        CONNECTION_TIMEOUT + computeDelay 1 0 < 13000) ∧
      (stepFn (.deliverClose 0 1006 "" 0)
        (stepFn (.connTimeoutFire 0) (runSteps [Step.mountFire] init))).reconnectAttempts = 2 ∧
      (stepFn (.deliverClose 0 1006 "" 0)
        (stepFn (.connTimeoutFire 0) (runSteps [Step.mountFire] init))).reconnectTimeout
        = some (computeDelay 2 0) ∧
      (3000 ≤ computeDelay 2 0 ∧ computeDelay 2 0 < 4000) ∧
      (13000 ≤ CONNECTION_TIMEOUT + computeDelay 2 0 ∧
        CONNECTION_TIMEOUT + computeDelay 2 0 < 14000)) :=
  ⟨by decide,
   connection_timeout_behaviour (runSteps [Step.mountFire] init) 0 0 0
     (by decide) (by decide) (by decide) (by decide) (by decide) (by decide) (by decide)
     le_rfl (by norm_num) le_rfl (by norm_num)⟩

end WSClient
